import Mathlib

/-!
Shallow embedding of the Stock_Analysis scoring and prediction engine
(`src/stock_scorer.py`, `src/predictor.py`).

Python floats are modelled as exact rationals (ℚ).  Python's built-in
`round(x, 2)` rounds half to even; `round2` below models it exactly on ℚ.
Pandas `NaN` propagation does not arise on the inputs the theorems quantify
over (positive prices, row counts above the guards), and fallible paths are
modelled with `Option`.
-/

namespace StockAnalysis

/-- Round half to even, as Python's built-in `round` on ties. -/
def roundHalfEven (x : ℚ) : ℤ :=
  if x - ⌊x⌋ < 1/2 then ⌊x⌋
  else if 1/2 < x - ⌊x⌋ then ⌊x⌋ + 1
  else if ⌊x⌋ % 2 = 0 then ⌊x⌋ else ⌊x⌋ + 1

/-- Python `round(x, 2)`. -/
def round2 (x : ℚ) : ℚ := (roundHalfEven (x * 100) : ℚ) / 100

theorem roundHalfEven_mem (x : ℚ) : roundHalfEven x = ⌊x⌋ ∨ roundHalfEven x = ⌊x⌋ + 1 := by
  unfold roundHalfEven
  split_ifs <;> simp

theorem floor_le_roundHalfEven (x : ℚ) : (⌊x⌋ : ℚ) ≤ roundHalfEven x := by
  rcases roundHalfEven_mem x with h | h <;> rw [h] <;> push_cast <;> linarith

theorem roundHalfEven_le_ceil (x : ℚ) : (roundHalfEven x : ℚ) ≤ ⌈x⌉ := by
  have hcl := Int.le_ceil x
  have hfc : (⌊x⌋ : ℤ) ≤ ⌈x⌉ := by exact_mod_cast (Int.floor_le x).trans hcl
  have key : (⌊x⌋ : ℚ) < x → ((⌊x⌋ + 1 : ℤ) : ℚ) ≤ (⌈x⌉ : ℚ) := by
    intro hlt
    have hstrict : (⌊x⌋ : ℤ) < ⌈x⌉ := by exact_mod_cast hlt.trans_le hcl
    have h3 : (⌊x⌋ : ℤ) + 1 ≤ ⌈x⌉ := hstrict
    exact_mod_cast h3
  unfold roundHalfEven
  split_ifs with h1 h2 h3
  · exact_mod_cast hfc
  · exact key (by linarith)
  · exact_mod_cast hfc
  · exact key (by linarith)

theorem abs_roundHalfEven_sub_le (x : ℚ) : |(roundHalfEven x : ℚ) - x| ≤ 1/2 := by
  have hfl := Int.floor_le x
  have hfu := Int.lt_floor_add_one x
  unfold roundHalfEven
  split_ifs with h1 h2 h3 <;> rw [abs_le] <;> push_cast <;> constructor <;> linarith

theorem round2_approx (x : ℚ) : |round2 x - x| ≤ 1/200 := by
  have h := abs_roundHalfEven_sub_le (x * 100)
  unfold round2
  rw [abs_le] at h ⊢
  constructor <;> nlinarith [h.1, h.2]

theorem round2_nonneg (x : ℚ) (hx : 0 ≤ x) : 0 ≤ round2 x := by
  have h := floor_le_roundHalfEven (x * 100)
  have hf : (0 : ℤ) ≤ ⌊x * 100⌋ := Int.le_floor.mpr (by push_cast; linarith)
  have hf2 : (0 : ℚ) ≤ (⌊x * 100⌋ : ℚ) := by exact_mod_cast hf
  unfold round2
  linarith [hf2.trans h]

theorem round2_le_int_div (x : ℚ) (N : ℤ) (hb : x * 100 ≤ N) : round2 x ≤ (N : ℚ) / 100 := by
  have h := roundHalfEven_le_ceil (x * 100)
  have hc : (⌈x * 100⌉ : ℤ) ≤ N := Int.ceil_le.mpr hb
  have hc2 : ((⌈x * 100⌉ : ℤ) : ℚ) ≤ (N : ℚ) := by exact_mod_cast hc
  unfold round2
  linarith [h.trans hc2]

/-! ## Target price and stop loss (`StockPredictor.calculate_target_price`)

Pure function of `(current_price, score)`.  The Python body is wrapped in
`try/except`: when `current_price == 0` the expression
`stop_loss / current_price` raises `ZeroDivisionError`, the handler prints and
returns the empty dict — modelled as `none`.  All other inputs return the
populated dict, each value passed through `round(·, 2)`. -/

structure TargetPrice where
  target_price : ℚ
  stop_loss : ℚ
  upside_potential : ℚ
  downside_risk : ℚ
  risk_reward_ratio : ℚ
deriving DecidableEq

/-- Upside tier from the overall score (`if score >= 80: upside = 0.25` …). -/
def upsideFor (score : ℚ) : ℚ :=
  if score ≥ 80 then 25/100
  else if score ≥ 65 then 15/100
  else if score ≥ 50 then 10/100
  else 5/100

/-- Stop-loss multiplier from the overall score (`current_price * 0.92` …). -/
def stopLossMult (score : ℚ) : ℚ :=
  if score ≥ 70 then 92/100
  else if score ≥ 50 then 90/100
  else 85/100

def calculate_target_price (current_price score : ℚ) : Option TargetPrice :=
  let upside := upsideFor score
  let target_price := current_price * (1 + upside)
  let stop_loss := current_price * stopLossMult score
  if current_price = 0 then none
  else
    let downside := 1 - stop_loss / current_price
    some { target_price := round2 target_price
           stop_loss := round2 stop_loss
           upside_potential := round2 (upside * 100)
           downside_risk := round2 (downside * 100)
           risk_reward_ratio := round2 (upside / downside) }

/-! ## Overall score (`StockScorer.calculate_overall_score`)

Inputs are each component's result dict; the source extracts
`technical.get('score', 50.0)`, `fundamental.get('score', 50.0)`,
`sentiment.get('overall_sentiment_score', 50.0)`, `momentum.get('score', 50.0)`
— modelled as `Option ℚ` with default 50.  The combiner blends with the fixed
`self.weights`, picks the rating from the unrounded blend, and reports the
blend rounded to two decimals. -/

structure Weights where
  technical : ℚ
  fundamental : ℚ
  sentiment : ℚ
  momentum : ℚ

/-- `self.weights` set in `StockScorer.__init__`. -/
def scorerWeights : Weights :=
  { technical := 35/100, fundamental := 35/100, sentiment := 20/100, momentum := 10/100 }

/-- The weighted average computed in `calculate_overall_score`. -/
def overallValue (tech_score fund_score sent_score mom_score : ℚ) : ℚ :=
  tech_score * scorerWeights.technical +
  fund_score * scorerWeights.fundamental +
  sent_score * scorerWeights.sentiment +
  mom_score * scorerWeights.momentum

structure OverallScore where
  overall_score : ℚ
  rating : String
  stars : ℕ
  technical : ℚ
  fundamental : ℚ
  sentiment : ℚ
  momentum : ℚ
deriving DecidableEq

/-- The `if overall >= 80: rating = 'Strong Buy'; stars = 5 …` ladder. -/
def ratingFor (overall : ℚ) : String × ℕ :=
  if overall ≥ 80 then ("Strong Buy", 5)
  else if overall ≥ 65 then ("Buy", 4)
  else if overall ≥ 50 then ("Hold", 3)
  else if overall ≥ 35 then ("Sell", 2)
  else ("Strong Sell", 1)

def calculate_overall_score (technical fundamental sentiment momentum : Option ℚ) :
    OverallScore :=
  let tech_score := technical.getD 50
  let fund_score := fundamental.getD 50
  let sent_score := sentiment.getD 50
  let mom_score := momentum.getD 50
  let overall := overallValue tech_score fund_score sent_score mom_score
  { overall_score := round2 overall
    rating := (ratingFor overall).1
    stars := (ratingFor overall).2
    technical := tech_score
    fundamental := fund_score
    sentiment := sent_score
    momentum := mom_score }

/-! ## Technical score (`StockScorer.calculate_technical_score`)

The indicator values (RSI(14), MACD(12,26,9) and its signal line, SMA20,
SMA50, Bollinger bands, 20-day average volume, ADX(14)) come from the external
`ta` / pandas indicator library, which is outside this repository; the
embedding therefore takes the indicator snapshot as input and models the
category-point accumulation, which is the repository's own logic.  `n` is the
row count of the price series (`len(data)`). -/

structure TechnicalIndicators where
  rsi : ℚ
  macd_line : ℚ
  signal_line : ℚ
  current_price : ℚ
  sma_20 : ℚ
  sma_50 : ℚ
  bb_high : ℚ
  bb_low : ℚ
  bb_mid : ℚ
  current_volume : ℚ
  avg_volume : ℚ
  adx : ℚ

/-- RSI category: `if 30 < current_rsi < 70: score += 15
elif 40 < current_rsi < 60: score += 20`, transcribed with the source's
branch order. -/
def rsiPoints (current_rsi : ℚ) : ℚ :=
  if 30 < current_rsi ∧ current_rsi < 70 then 15
  else if 40 < current_rsi ∧ current_rsi < 60 then 20
  else 0

/-- The `max_score += 20` accumulated for the RSI category. -/
def rsiMaxPoints : ℚ := 20

def macdPoints (macd_line signal_line : ℚ) : ℚ :=
  if macd_line > signal_line then 15 else 0

def maPoints (current_price sma_20 sma_50 : ℚ) : ℚ :=
  if current_price > sma_20 ∧ sma_20 > sma_50 then 25
  else if current_price > sma_20 then 15
  else 0

def bbPoints (current_price bb_low bb_high bb_mid : ℚ) : ℚ :=
  if bb_low < current_price ∧ current_price < bb_high then
    (if current_price > bb_mid then 20 else 10)
  else 0

def volumePoints (current_volume avg_volume : ℚ) : ℚ :=
  if current_volume > avg_volume then 10 else 0

def adxPoints (adx_value : ℚ) : ℚ :=
  if adx_value > 25 then 10 else 0

/-- `max_score` after all six categories: 20 + 15 + 25 + 20 + 10 + 10. -/
def technicalMaxScore : ℚ := rsiMaxPoints + 15 + 25 + 20 + 10 + 10

def calculate_technical_score (n : ℕ) (ind : TechnicalIndicators) : ℚ :=
  if n < 50 then 50
  else
    let score := rsiPoints ind.rsi + macdPoints ind.macd_line ind.signal_line +
      maPoints ind.current_price ind.sma_20 ind.sma_50 +
      bbPoints ind.current_price ind.bb_low ind.bb_high ind.bb_mid +
      volumePoints ind.current_volume ind.avg_volume + adxPoints ind.adx
    round2 (score / technicalMaxScore * 100)

/-! ## Fundamental score (`StockScorer.calculate_fundamental_score`)

`metrics` is a Python dict; `metrics.get(k)` yields `None` for a missing key,
so each metric is an `Option ℚ`.  Python truthiness: `if pe and pe > 0` is
"present, non-zero and positive" (equivalently `0 < pe`); `if roe:` is
"present and non-zero"; `if de is not None:` admits zero.  Each section
returns its points and the `analysis[...]` entries it records, in source
order.  Python's `if not metrics:` (empty dict) is modelled as every field
`none`; a dict whose keys are all explicitly `None` behaves identically to an
absent-key dict in every section, and is identified with it here. -/

structure MetricsMap where
  pe_ratio : Option ℚ := none
  peg_ratio : Option ℚ := none
  price_to_book : Option ℚ := none
  debt_to_equity : Option ℚ := none
  roe : Option ℚ := none
  profit_margin : Option ℚ := none
  revenue_growth : Option ℚ := none
  dividend_yield : Option ℚ := none
  beta : Option ℚ := none
deriving DecidableEq

def MetricsMap.empty : MetricsMap := {}

/-- `if pe and pe > 0:` — record `pe`, award by `10<pe<25 / 5<pe<35 / pe>0`. -/
def peSection (pe : Option ℚ) : ℚ × List (String × ℚ) :=
  match pe with
  | some v =>
    if 0 < v then
      (if 10 < v ∧ v < 25 then 15 else if 5 < v ∧ v < 35 then 10 else 5, [("pe_ratio", v)])
    else (0, [])
  | none => (0, [])

/-- `if peg and peg > 0:` — record `peg`, award by `<1 / <2 / <3`. -/
def pegSection (peg : Option ℚ) : ℚ × List (String × ℚ) :=
  match peg with
  | some v =>
    if 0 < v then
      (if v < 1 then 15 else if v < 2 then 10 else if v < 3 then 5 else 0, [("peg_ratio", v)])
    else (0, [])
  | none => (0, [])

/-- `if pb and pb > 0:` — record `pb`, award by `<3 / <5`. -/
def pbSection (pb : Option ℚ) : ℚ × List (String × ℚ) :=
  match pb with
  | some v =>
    if 0 < v then
      (if v < 3 then 10 else if v < 5 then 5 else 0, [("price_to_book", v)])
    else (0, [])
  | none => (0, [])

/-- `if de is not None:` — record `de` even at zero, award by `<0.5 / <1.0 / <2.0`. -/
def deSection (de : Option ℚ) : ℚ × List (String × ℚ) :=
  match de with
  | some v =>
    (if v < 1/2 then 10 else if v < 1 then 7 else if v < 2 then 3 else 0,
     [("debt_to_equity", v)])
  | none => (0, [])

/-- `if roe:` — truthy (non-zero), records `round(roe*100, 2)`. -/
def roeSection (roe : Option ℚ) : ℚ × List (String × ℚ) :=
  match roe with
  | some v =>
    if v ≠ 0 then
      (if v > 15/100 then 15 else if v > 10/100 then 10 else if v > 5/100 then 5 else 0,
       [("roe", round2 (v * 100))])
    else (0, [])
  | none => (0, [])

/-- `if margin:` — truthy, records `round(margin*100, 2)`. -/
def marginSection (margin : Option ℚ) : ℚ × List (String × ℚ) :=
  match margin with
  | some v =>
    if v ≠ 0 then
      (if v > 20/100 then 10 else if v > 10/100 then 7 else if v > 5/100 then 3 else 0,
       [("profit_margin", round2 (v * 100))])
    else (0, [])
  | none => (0, [])

/-- `if rev_growth:` — truthy, records `round(rev_growth*100, 2)`. -/
def revGrowthSection (rev_growth : Option ℚ) : ℚ × List (String × ℚ) :=
  match rev_growth with
  | some v =>
    if v ≠ 0 then
      (if v > 20/100 then 15 else if v > 10/100 then 10 else if v > 5/100 then 5 else 0,
       [("revenue_growth", round2 (v * 100))])
    else (0, [])
  | none => (0, [])

/-- `if div_yield:` — truthy, records `round(div_yield*100, 2)`. -/
def divYieldSection (div_yield : Option ℚ) : ℚ × List (String × ℚ) :=
  match div_yield with
  | some v =>
    if v ≠ 0 then
      (if v > 2/100 then 5 else 0, [("dividend_yield", round2 (v * 100))])
    else (0, [])
  | none => (0, [])

/-- `if beta:` — truthy, records `beta` raw. -/
def betaSection (beta : Option ℚ) : ℚ × List (String × ℚ) :=
  match beta with
  | some v =>
    if v ≠ 0 then
      (if 1/2 < v ∧ v < 3/2 then 5 else 0, [("beta", v)])
    else (0, [])
  | none => (0, [])

/-- `max_score` accumulated over the nine metric sections:
15+15+10+10+15+10+15+5+5 = 100. -/
def fundamentalMaxScore : ℚ := 15 + 15 + 10 + 10 + 15 + 10 + 15 + 5 + 5

structure FundamentalResult where
  score : ℚ
  analysis : List (String × ℚ)
deriving DecidableEq

def calculate_fundamental_score (metrics : MetricsMap) : FundamentalResult :=
  if metrics = MetricsMap.empty then { score := 50, analysis := [] }
  else
    let s1 := peSection metrics.pe_ratio
    let s2 := pegSection metrics.peg_ratio
    let s3 := pbSection metrics.price_to_book
    let s4 := deSection metrics.debt_to_equity
    let s5 := roeSection metrics.roe
    let s6 := marginSection metrics.profit_margin
    let s7 := revGrowthSection metrics.revenue_growth
    let s8 := divYieldSection metrics.dividend_yield
    let s9 := betaSection metrics.beta
    let score := s1.1 + s2.1 + s3.1 + s4.1 + s5.1 + s6.1 + s7.1 + s8.1 + s9.1
    { score := round2 (score / fundamentalMaxScore * 100)
      analysis := s1.2 ++ s2.2 ++ s3.2 ++ s4.2 ++ s5.2 ++ s6.2 ++ s7.2 ++ s8.2 ++ s9.2 }

/-! ## Predictor (`StockPredictor`)

A `PriceSeries` carries the `Close` and `Volume` columns.  Pandas details:
`pct_change` leaves a leading `NaN` which every subsequent mean/std skips —
modelled by a returns list of length `n-1`; `.rolling(20).mean()` is defined
from row 20 on — modelled as the list of window means; `.std()` uses `ddof=1`.
The source's `confidence` fields need a real square root of the sample
variance of the returns, so the embedding carries the variance itself (the
source value is `clamp(0, 100, 100 - 1000*sqrt(var))`, resp. `*800` and
`*0.7` for the long horizon); no claim concerns those fields. -/

structure PriceSeries where
  close : List ℚ
  volume : List ℚ

/-- Arithmetic mean (a pandas `mean()` over the listed values). -/
def mean (xs : List ℚ) : ℚ := xs.sum / xs.length

/-- `df['Close'].pct_change()`, with the leading `NaN` dropped. -/
def pct_change (xs : List ℚ) : List ℚ :=
  List.zipWith (fun prev cur => (cur - prev) / prev) xs xs.tail

/-- `.iloc[-k:]`: the last `k` entries. -/
def lastN (k : ℕ) (xs : List ℚ) : List ℚ := xs.drop (xs.length - k)

/-- `.rolling(window=w).mean()` with the leading `NaN` rows dropped:
entry `i` is the mean of `xs[i..i+w-1]`. -/
def rollingMean (w : ℕ) (xs : List ℚ) : List ℚ :=
  (List.range (xs.length + 1 - w)).map (fun i => mean ((xs.drop i).take w))

/-- Sample variance, pandas `std()**2` (`ddof=1`). -/
def sampleVariance (xs : List ℚ) : ℚ :=
  let m := mean xs
  (xs.map (fun x => (x - m) ^ 2)).sum / (xs.length - 1)

inductive PredResult (α : Type) where
  /-- `{'prediction': ..., 'confidence': ...}` returned below the row-count
  guard. -/
  | insufficient (prediction : String) (confidence : ℚ) : PredResult α
  | ok (r : α) : PredResult α
deriving DecidableEq

structure ShortPrediction where
  current_price : ℚ
  predicted_price : ℚ
  predicted_change_pct : ℚ
  direction : String
  magnitude : ℚ
  returns_variance : ℚ
  timeframe : String
deriving DecidableEq

def predict_short_term (data : PriceSeries) (days : ℕ) : PredResult ShortPrediction :=
  if data.close.length < 30 then .insufficient "Insufficient data" 0
  else
    let current_price := data.close.getLast?.getD 0
    let returns := pct_change data.close
    let recent_returns := mean (lastN 10 returns)
    let volume_ratio :=
      List.zipWith (fun v m => v / m) (data.volume.drop 19) (rollingMean 20 data.volume)
    let volume_trend := mean (lastN 5 volume_ratio)
    let base_change := recent_returns * days
    let predicted_change :=
      if volume_trend > 12/10 then base_change * (11/10)
      else if volume_trend < 8/10 then base_change * (9/10)
      else base_change
    let predicted_price := current_price * (1 + predicted_change)
    .ok { current_price := round2 current_price
          predicted_price := round2 predicted_price
          predicted_change_pct := round2 (predicted_change * 100)
          direction := if predicted_change > 0 then "Up" else "Down"
          magnitude := round2 |predicted_change * 100|
          returns_variance := sampleVariance returns
          timeframe := toString days ++ " day(s)" }

def predict_medium_term (data : PriceSeries) (weeks : ℕ) : PredResult ShortPrediction :=
  predict_short_term data (weeks * 7)

/-- `df['Close'].iloc[-k]` (for `k ≤ len`). -/
def ilocNeg (xs : List ℚ) (k : ℕ) : ℚ := xs.getD (xs.length - k) 0

/-- `growth_3m = (close[-1]-close[-63])/close[-63] if len >= 63 else 0`. -/
def growth_3m (close : List ℚ) : ℚ :=
  if 63 ≤ close.length then
    (close.getLast?.getD 0 - ilocNeg close 63) / ilocNeg close 63
  else 0

/-- `growth_6m = ... if len >= 126 else growth_3m`. -/
def growth_6m (close : List ℚ) : ℚ :=
  if 126 ≤ close.length then
    (close.getLast?.getD 0 - ilocNeg close 126) / ilocNeg close 126
  else growth_3m close

/-- `growth_12m = ... if len >= 252 else growth_6m`. -/
def growth_12m (close : List ℚ) : ℚ :=
  if 252 ≤ close.length then
    (close.getLast?.getD 0 - ilocNeg close 252) / ilocNeg close 252
  else growth_6m close

structure LongPrediction where
  current_price : ℚ
  predicted_price : ℚ
  predicted_change_pct : ℚ
  direction : String
  returns_variance : ℚ
  timeframe : String
  annual_growth_rate : ℚ
deriving DecidableEq

def predict_long_term (data : PriceSeries) (months : ℕ) : PredResult LongPrediction :=
  if data.close.length < 100 then .insufficient "Insufficient data" 0
  else
    let current_price := data.close.getLast?.getD 0
    let avg_growth :=
      growth_3m data.close * (5/10) + growth_6m data.close * (3/10) +
      growth_12m data.close * (2/10)
    let annual_growth := avg_growth * (12/3)
    let predicted_growth := annual_growth * ((months : ℚ) / 12)
    let predicted_price := current_price * (1 + predicted_growth)
    .ok { current_price := round2 current_price
          predicted_price := round2 predicted_price
          predicted_change_pct := round2 (predicted_growth * 100)
          direction := if predicted_growth > 0 then "Bullish" else "Bearish"
          returns_variance := sampleVariance (pct_change data.close)
          timeframe := toString months ++ " month(s)"
          annual_growth_rate := round2 (annual_growth * 100) }

/-! ## Claims -/

/-- C6: `calculate_target_price` at `current_price = 100`, `score = 85` returns
`target_price = 125.00`, `stop_loss = 92.00`, upside 25.0 %, downside 8.0 %,
and a risk/reward ratio of exactly 25/8 = 3.125 before rounding, reported as
3.12 after `round(·, 2)` — within 0.005 of 3.125. -/
theorem c6_target_price_at_100_85 :
    calculate_target_price 100 85 =
      some { target_price := 125, stop_loss := 92, upside_potential := 25,
             downside_risk := 8, risk_reward_ratio := 312/100 } ∧
    (calculate_target_price 100 85).elim 0 (·.risk_reward_ratio) = round2 (25/8) ∧
    |(calculate_target_price 100 85).elim 0 (·.risk_reward_ratio) - 3125/1000| ≤ 5/1000 := by
  refine ⟨?_, ?_, ?_⟩ <;>
    norm_num [calculate_target_price, upsideFor, stopLossMult, round2, roundHalfEven, abs_le]

/-- C2 counterexample: a non-positive `current_price` does not raise a hard
error to the caller.  At `current_price = -100`, `score = 85` the function
returns a fully populated, normal result; at `current_price = 0` the internal
`ZeroDivisionError` is swallowed by the catch-all `except`, which returns the
empty dict (`none`) — a silently degraded result, not an error. -/
theorem c2_counterexample_no_hard_error :
    calculate_target_price (-100) 85 =
      some { target_price := -125, stop_loss := -92, upside_potential := 25,
             downside_risk := 8, risk_reward_ratio := 312/100 } ∧
    calculate_target_price 0 85 = none := by
  constructor <;>
    norm_num [calculate_target_price, upsideFor, stopLossMult, round2, roundHalfEven]

/-- C2 (amended): `calculate_target_price` performs no positivity guard and
never surfaces an error: every negative `current_price` yields a normal
populated result (`isSome`), and `current_price = 0` yields the empty dict
(`none`) because the catch-all `except` swallows the `ZeroDivisionError`. -/
theorem c2_nonpositive_price_never_errors (current_price score : ℚ)
    (h : current_price < 0) :
    (calculate_target_price current_price score).isSome = true ∧
    calculate_target_price 0 score = none := by
  constructor
  · unfold calculate_target_price
    rw [if_neg (ne_of_lt h)]
    rfl
  · unfold calculate_target_price
    rw [if_pos rfl]

/-- C2 witness: the amended theorem applied at `current_price = -50`,
`score = 60`. -/
theorem c2_witness :
    (calculate_target_price (-50) 60).isSome = true ∧
    calculate_target_price 0 60 = none :=
  c2_nonpositive_price_never_errors (-50) 60 (by norm_num)

/-- C9: for every positive `current_price`, the unrounded stop loss
`current_price * stopLossMult score` is strictly below the price, the
unrounded target `current_price * (1 + upsideFor score)` is strictly above,
the price multiplier is one of 1.05/1.10/1.15/1.25, the stop-loss multiplier
one of 0.85/0.90/0.92, and the unrounded risk/reward ratio
`upside / (1 - stop_loss/current_price)` is strictly positive. -/
theorem c9_target_brackets_price (current_price score : ℚ) (h : 0 < current_price) :
    current_price * stopLossMult score < current_price ∧
    current_price < current_price * (1 + upsideFor score) ∧
    (1 + upsideFor score = 105/100 ∨ 1 + upsideFor score = 110/100 ∨
     1 + upsideFor score = 115/100 ∨ 1 + upsideFor score = 125/100) ∧
    (stopLossMult score = 85/100 ∨ stopLossMult score = 90/100 ∨
     stopLossMult score = 92/100) ∧
    0 < upsideFor score / (1 - current_price * stopLossMult score / current_price) := by
  have hu : upsideFor score = 5/100 ∨ upsideFor score = 10/100 ∨
      upsideFor score = 15/100 ∨ upsideFor score = 25/100 := by
    unfold upsideFor; split_ifs <;> norm_num
  have hs : stopLossMult score = 85/100 ∨ stopLossMult score = 90/100 ∨
      stopLossMult score = 92/100 := by
    unfold stopLossMult; split_ifs <;> norm_num
  have hu0 : 0 < upsideFor score := by rcases hu with h' | h' | h' | h' <;> rw [h'] <;> norm_num
  have hs1 : stopLossMult score < 1 := by rcases hs with h' | h' | h' <;> rw [h'] <;> norm_num
  have hdiv : current_price * stopLossMult score / current_price = stopLossMult score := by
    field_simp
  refine ⟨?_, ?_, ?_, hs, ?_⟩
  · nlinarith
  · nlinarith
  · rcases hu with h' | h' | h' | h' <;> rw [h'] <;> norm_num
  · rw [hdiv]
    exact div_pos hu0 (by linarith)

/-- C9 witness: the theorem applied at `current_price = 50`, `score = 85`. -/
theorem c9_witness :
    (50 : ℚ) * stopLossMult 85 < 50 ∧
    (50 : ℚ) < 50 * (1 + upsideFor 85) ∧
    (1 + upsideFor 85 = 105/100 ∨ 1 + upsideFor 85 = 110/100 ∨
     1 + upsideFor 85 = 115/100 ∨ 1 + upsideFor 85 = 125/100) ∧
    (stopLossMult 85 = 85/100 ∨ stopLossMult 85 = 90/100 ∨ stopLossMult 85 = 92/100) ∧
    0 < upsideFor 85 / (1 - 50 * stopLossMult 85 / 50) :=
  c9_target_brackets_price 50 85 (by norm_num)

/-- C3 counterexample: an overall value of exactly 34.99 (all four component
scores 34.99, whose weighted blend is 34.99) is rated "Strong Sell" with 1
star, not "Sell" with 2 stars: the Sell tier requires `overall >= 35`. -/
theorem c3_counterexample_34_99 :
    overallValue (3499/100) (3499/100) (3499/100) (3499/100) = 3499/100 ∧
    (calculate_overall_score (some (3499/100)) (some (3499/100)) (some (3499/100))
      (some (3499/100))).rating ≠ "Sell" ∧
    (calculate_overall_score (some (3499/100)) (some (3499/100)) (some (3499/100))
      (some (3499/100))).stars ≠ 2 ∧
    (calculate_overall_score (some (3499/100)) (some (3499/100)) (some (3499/100))
      (some (3499/100))).rating = "Strong Sell" ∧
    (calculate_overall_score (some (3499/100)) (some (3499/100)) (some (3499/100))
      (some (3499/100))).stars = 1 := by
  refine ⟨?_, ?_, ?_, ?_, ?_⟩ <;>
    · norm_num [calculate_overall_score, ratingFor, overallValue, scorerWeights]
      all_goals decide

/-- C3 (amended): rating boundaries are closed below — a weighted overall of
exactly 80.0 is rated "Strong Buy"/5★, 79.99 "Buy"/4★, 50.0 "Hold"/3★,
35.0 "Sell"/2★, and 34.99 falls through to "Strong Sell"/1★. -/
theorem c3_rating_boundaries (t f s m : ℚ) :
    (overallValue t f s m = 80 →
      (calculate_overall_score (some t) (some f) (some s) (some m)).rating = "Strong Buy" ∧
      (calculate_overall_score (some t) (some f) (some s) (some m)).stars = 5) ∧
    (overallValue t f s m = 7999/100 →
      (calculate_overall_score (some t) (some f) (some s) (some m)).rating = "Buy" ∧
      (calculate_overall_score (some t) (some f) (some s) (some m)).stars = 4) ∧
    (overallValue t f s m = 50 →
      (calculate_overall_score (some t) (some f) (some s) (some m)).rating = "Hold" ∧
      (calculate_overall_score (some t) (some f) (some s) (some m)).stars = 3) ∧
    (overallValue t f s m = 35 →
      (calculate_overall_score (some t) (some f) (some s) (some m)).rating = "Sell" ∧
      (calculate_overall_score (some t) (some f) (some s) (some m)).stars = 2) ∧
    (overallValue t f s m = 3499/100 →
      (calculate_overall_score (some t) (some f) (some s) (some m)).rating = "Strong Sell" ∧
      (calculate_overall_score (some t) (some f) (some s) (some m)).stars = 1) := by
  refine ⟨?_, ?_, ?_, ?_, ?_⟩ <;> intro h <;>
    simp only [calculate_overall_score, Option.getD_some] <;> rw [h] <;> norm_num [ratingFor]

/-- C3 witness: the amended theorem applied at each boundary, with all four
component scores equal to the target overall value. -/
theorem c3_witness :
    ((calculate_overall_score (some 80) (some 80) (some 80) (some 80)).rating = "Strong Buy" ∧
      (calculate_overall_score (some 80) (some 80) (some 80) (some 80)).stars = 5) ∧
    ((calculate_overall_score (some (7999/100)) (some (7999/100)) (some (7999/100))
        (some (7999/100))).rating = "Buy" ∧
      (calculate_overall_score (some (7999/100)) (some (7999/100)) (some (7999/100))
        (some (7999/100))).stars = 4) ∧
    ((calculate_overall_score (some 50) (some 50) (some 50) (some 50)).rating = "Hold" ∧
      (calculate_overall_score (some 50) (some 50) (some 50) (some 50)).stars = 3) ∧
    ((calculate_overall_score (some 35) (some 35) (some 35) (some 35)).rating = "Sell" ∧
      (calculate_overall_score (some 35) (some 35) (some 35) (some 35)).stars = 2) :=
  ⟨(c3_rating_boundaries 80 80 80 80).1 (by norm_num [overallValue, scorerWeights]),
   (c3_rating_boundaries (7999/100) (7999/100) (7999/100) (7999/100)).2.1
     (by norm_num [overallValue, scorerWeights]),
   (c3_rating_boundaries 50 50 50 50).2.2.1 (by norm_num [overallValue, scorerWeights]),
   (c3_rating_boundaries 35 35 35 35).2.2.2.1 (by norm_num [overallValue, scorerWeights])⟩

/-- C4 counterexample: the returned `overall_score` is the weighted blend
rounded to two decimals, so it is not always equal to
`0.35*T + 0.35*F + 0.20*S + 0.10*M`: at `T = 0.01, F = S = M = 0` (all in
[0,100]) the blend is 0.0035 but the function returns 0.0. -/
theorem c4_counterexample_rounding :
    (35:ℚ)/100 * (1/100) + 35/100 * 0 + 20/100 * 0 + 10/100 * 0 = 7/2000 ∧
    (calculate_overall_score (some (1/100)) (some 0) (some 0) (some 0)).overall_score = 0 ∧
    (calculate_overall_score (some (1/100)) (some 0) (some 0)
      (some 0)).overall_score ≠ 7/2000 := by
  refine ⟨by norm_num, ?_, ?_⟩ <;>
    norm_num [calculate_overall_score, overallValue, scorerWeights, round2, roundHalfEven]

/-- C4 (amended): the blend computed by `calculate_overall_score` is exactly
linear — `overallValue T F S M = 0.35*T + 0.35*F + 0.20*S + 0.10*M` — and lies
in [0,100] for component scores in [0,100]; the returned `overall_score` is
that blend rounded to two decimals, hence within 0.005 of the exact weighted
sum and itself in [0,100]. -/
theorem c4_combiner_linear_and_bounded (t f s m : ℚ)
    (ht0 : 0 ≤ t) (ht1 : t ≤ 100) (hf0 : 0 ≤ f) (hf1 : f ≤ 100)
    (hs0 : 0 ≤ s) (hs1 : s ≤ 100) (hm0 : 0 ≤ m) (hm1 : m ≤ 100) :
    overallValue t f s m = 35/100 * t + 35/100 * f + 20/100 * s + 10/100 * m ∧
    0 ≤ overallValue t f s m ∧ overallValue t f s m ≤ 100 ∧
    (calculate_overall_score (some t) (some f) (some s) (some m)).overall_score
      = round2 (overallValue t f s m) ∧
    |(calculate_overall_score (some t) (some f) (some s) (some m)).overall_score
      - (35/100 * t + 35/100 * f + 20/100 * s + 10/100 * m)| ≤ 1/200 ∧
    0 ≤ (calculate_overall_score (some t) (some f) (some s) (some m)).overall_score ∧
    (calculate_overall_score (some t) (some f) (some s) (some m)).overall_score ≤ 100 := by
  have hlin : overallValue t f s m = 35/100 * t + 35/100 * f + 20/100 * s + 10/100 * m := by
    unfold overallValue scorerWeights; ring
  have h0 : 0 ≤ overallValue t f s m := by rw [hlin]; linarith
  have h100 : overallValue t f s m ≤ 100 := by rw [hlin]; linarith
  have hproj : (calculate_overall_score (some t) (some f) (some s) (some m)).overall_score
      = round2 (overallValue t f s m) := by
    simp only [calculate_overall_score, Option.getD_some]
  refine ⟨hlin, h0, h100, hproj, ?_, ?_, ?_⟩
  · rw [hproj, ← hlin]
    exact round2_approx _
  · rw [hproj]
    exact round2_nonneg _ h0
  · rw [hproj]
    have := round2_le_int_div (overallValue t f s m) 10000 (by push_cast; nlinarith [h100])
    calc round2 (overallValue t f s m) ≤ ((10000 : ℤ) : ℚ) / 100 := this
    _ = 100 := by norm_num

/-- C4 witness: the amended theorem applied at `T = 100, F = 0, S = 50,
M = 25`. -/
theorem c4_witness :
    overallValue 100 0 50 25 = 35/100 * 100 + 35/100 * 0 + 20/100 * 50 + 10/100 * 25 ∧
    0 ≤ overallValue 100 0 50 25 ∧ overallValue 100 0 50 25 ≤ 100 ∧
    (calculate_overall_score (some 100) (some 0) (some 50) (some 25)).overall_score
      = round2 (overallValue 100 0 50 25) ∧
    |(calculate_overall_score (some 100) (some 0) (some 50) (some 25)).overall_score
      - (35/100 * 100 + 35/100 * 0 + 20/100 * 50 + 10/100 * 25)| ≤ 1/200 ∧
    0 ≤ (calculate_overall_score (some 100) (some 0) (some 50) (some 25)).overall_score ∧
    (calculate_overall_score (some 100) (some 0) (some 50) (some 25)).overall_score ≤ 100 :=
  c4_combiner_linear_and_bounded 100 0 50 25 (by norm_num) (by norm_num) (by norm_num)
    (by norm_num) (by norm_num) (by norm_num) (by norm_num) (by norm_num)

/-- C1: the source orders the RSI branches
`if 30 < rsi < 70: +15 elif 40 < rsi < 60: +20`, so an RSI strictly between
40 and 60 — e.g. 50 — falls in the first branch and is awarded 15, never the
20 the spec describes: the 20-point branch is unreachable (the category never
awards more than 15) even though the category's `max_score` share is 20. -/
theorem c1_rsi_midband_awards_15_not_20 :
    rsiPoints 50 = 15 ∧ (∀ r : ℚ, rsiPoints r ≤ 15) ∧ rsiMaxPoints = 20 := by
  refine ⟨by norm_num [rsiPoints], ?_, by norm_num [rsiMaxPoints]⟩
  intro r
  unfold rsiPoints
  split_ifs with h1 h2
  · norm_num
  · exact absurd ⟨lt_trans (by norm_num) h2.1, lt_trans h2.2 (by norm_num)⟩ h1
  · norm_num

/-- C10: in the fundamental scorer every metric gated by Python truthiness
treats an explicit 0 exactly like an absent metric — zero points and no
`analysis` entry — while `debt_to_equity` is tested with `is not None` only,
so `{debt_to_equity: 0.0}` scores 10 points (0 < 0.5 tier) out of the fixed
denominator 100, i.e. overall 10.0, with `debt_to_equity` recorded. -/
theorem c10_zero_metric_treated_absent :
    peSection (some 0) = (0, []) ∧ peSection none = (0, []) ∧
    pegSection (some 0) = (0, []) ∧ pegSection none = (0, []) ∧
    pbSection (some 0) = (0, []) ∧ pbSection none = (0, []) ∧
    roeSection (some 0) = (0, []) ∧ roeSection none = (0, []) ∧
    marginSection (some 0) = (0, []) ∧ marginSection none = (0, []) ∧
    revGrowthSection (some 0) = (0, []) ∧ revGrowthSection none = (0, []) ∧
    divYieldSection (some 0) = (0, []) ∧ divYieldSection none = (0, []) ∧
    betaSection (some 0) = (0, []) ∧ betaSection none = (0, []) ∧
    deSection (some 0) = (10, [("debt_to_equity", 0)]) ∧
    calculate_fundamental_score { debt_to_equity := some 0 } =
      { score := 10, analysis := [("debt_to_equity", 0)] } := by
  refine ⟨?_, ?_, ?_, ?_, ?_, ?_, ?_, ?_, ?_, ?_, ?_, ?_, ?_, ?_, ?_, ?_, ?_, ?_⟩ <;>
    · norm_num [calculate_fundamental_score, MetricsMap.empty, peSection, pegSection,
        pbSection, deSection, roeSection, marginSection, revGrowthSection, divYieldSection,
        betaSection, fundamentalMaxScore, round2, roundHalfEven]
      all_goals simp

theorem mean_replicate_zero (k : ℕ) : mean (List.replicate k (0:ℚ)) = 0 := by
  unfold mean
  rw [List.sum_replicate]
  simp

theorem pct_change_replicate (n : ℕ) (c : ℚ) :
    pct_change (List.replicate n c) = List.replicate (n - 1) 0 := by
  unfold pct_change
  rw [List.tail_replicate, List.zipWith_replicate]
  have hmin : min n (n - 1) = n - 1 := by omega
  rw [hmin]
  simp

/-- C5: on a constant-close series of at least 30 rows (any volume column,
any horizon), the short-term predictor returns `predicted_change_pct = 0.0`
and `direction = "Down"`: every daily return is zero, so the momentum-based
predicted change is exactly zero, and the direction test is strict
(`'Up' if predicted_change > 0 else 'Down'`), so a zero change ties to
"Down". -/
theorem c5_flat_series_zero_change_down (n : ℕ) (c : ℚ) (vol : List ℚ) (days : ℕ)
    (hn : 30 ≤ n) (_hc : 0 < c) :
    ∃ r, predict_short_term ⟨List.replicate n c, vol⟩ days = .ok r ∧
      r.predicted_change_pct = 0 ∧ r.direction = "Down" := by
  have hguard : ¬ ((⟨List.replicate n c, vol⟩ : PriceSeries).close.length < 30) := by
    simp only [List.length_replicate]
    omega
  unfold predict_short_term
  rw [if_neg hguard]
  have hmean : mean (lastN 10 (List.replicate (n - 1) (0:ℚ))) = 0 := by
    unfold lastN
    rw [List.drop_replicate]
    exact mean_replicate_zero _
  refine ⟨_, rfl, ?_, ?_⟩ <;>
    · dsimp only
      rw [pct_change_replicate, hmean]
      simp only [zero_mul, ite_self]
      norm_num [round2, roundHalfEven]

/-- C5 witness: the theorem applied to a flat 40-row series of constant close
50 and constant volume 1000, with a 1-day horizon. -/
theorem c5_witness :
    ∃ r, predict_short_term ⟨List.replicate 40 (50:ℚ), List.replicate 40 1000⟩ 1 = .ok r ∧
      r.predicted_change_pct = 0 ∧ r.direction = "Down" :=
  c5_flat_series_zero_change_down 40 50 (List.replicate 40 1000) 1 (by decide) (by norm_num)

/-- C7: with at least 100 but fewer than 126 rows, the long-term predictor's
6-month growth falls back to the 3-month growth used in the weighted blend;
and with fewer than 100 rows `predict_long_term` returns
`{prediction: 'Insufficient data', confidence: 0}`. -/
theorem c7_long_term_fallbacks (c₁ c₂ v : List ℚ) (months : ℕ)
    (h₁ : 100 ≤ c₁.length) (h₂ : c₁.length < 126) (h₃ : c₂.length < 100) :
    growth_6m c₁ = growth_3m c₁ ∧
    predict_long_term ⟨c₂, v⟩ months = .insufficient "Insufficient data" 0 := by
  constructor
  · unfold growth_6m
    rw [if_neg (by omega)]
  · unfold predict_long_term
    rw [if_pos h₃]

/-- C7 witness: the theorem applied to a 100-row constant series (6-month
fallback) and a 50-row series (insufficient data), 12-month horizon. -/
theorem c7_witness :
    growth_6m (List.replicate 100 (1:ℚ)) = growth_3m (List.replicate 100 (1:ℚ)) ∧
    predict_long_term ⟨List.replicate 50 (1:ℚ), List.replicate 50 (1:ℚ)⟩ 12 =
      .insufficient "Insufficient data" 0 :=
  c7_long_term_fallbacks (List.replicate 100 (1:ℚ)) (List.replicate 50 (1:ℚ))
    (List.replicate 50 (1:ℚ)) 12 (by simp) (by simp) (by simp)

/-- C8: `predict_medium_term(data, weeks)` returns exactly
`predict_short_term(data, days = weeks * 7)` — the source delegates
directly. -/
theorem c8_medium_term_delegates (data : PriceSeries) (weeks : ℕ) :
    predict_medium_term data weeks = predict_short_term data (weeks * 7) := rfl

end StockAnalysis
